import Mathlib

/-!
Verification of the QA pipeline orchestrator (`run-qa-playbook.sh`) and the
reservation domain model (`src/domain/reservations`, `src/utils`) of the
QA-advance-template repository.

The shell orchestrator is embedded as a pure function from a `World`
(the outcomes of the external commands the script invokes) to a `RunResult`
(the ordered trace of observable actions, the process exit code, and the
aggregated issue count when the final analysis runs).  The TypeScript
domain classes are embedded as Lean structures and functions; `Map` keeps
the JavaScript insertion-order update semantics, and `throw` becomes
`Except.error` carrying the thrown message.
-/

set_option linter.unusedVariables false

/-! ## Currency (`src/utils/Currency.ts`) -/

/-- Embedding of the `Currency` interface: `{ amount: number; currency: string }`.
Amounts are modelled as rationals; the code only adds and compares them. -/
structure Currency where
  amount : ℚ
  currency : String
  deriving Repr, DecidableEq

namespace CurrencyUtils

/-- Embedding of `CurrencyUtils.create`: rejects negative amounts, otherwise
builds the record `{ amount, currency }`. -/
def create (amount : ℚ) (currency : String) : Except String Currency :=
  if amount < 0 then
    Except.error "Amount cannot be negative"
  else
    Except.ok { amount := amount, currency := currency }

/-- Embedding of `CurrencyUtils.add`: throws on mismatched currency codes,
otherwise returns `{ amount: a.amount + b.amount, currency: a.currency }`. -/
def add (a b : Currency) : Except String Currency :=
  if a.currency ≠ b.currency then
    Except.error "Cannot add different currencies"
  else
    Except.ok { amount := a.amount + b.amount, currency := a.currency }

end CurrencyUtils

/-! ## Reservations (`src/domain/reservations`) -/

/-- Embedding of the `Reservation` class: an id, a name, a branded email
string, an amount and a creation instant (epoch milliseconds). -/
structure Reservation where
  id : String
  name : String
  email : String
  amount : Currency
  createdAt : Int
  deriving Repr, DecidableEq

/-- Embedding of `EmailDuplicatePolicy.check`: true when some existing
reservation has the same email as the candidate. -/
def EmailDuplicatePolicy.check (reservation : Reservation)
    (existing : List Reservation) : Bool :=
  existing.any fun r => r.email == reservation.email

/-- Embedding of `NoDuplicatePolicy.check`: always false. -/
def NoDuplicatePolicy.check (reservation : Reservation)
    (existing : List Reservation) : Bool :=
  false

/-- JavaScript `Map.set` semantics on an insertion-ordered association list:
an existing key is updated in place, a new key is appended at the end. -/
def mapSet (m : List (String × Reservation)) (k : String) (v : Reservation) :
    List (String × Reservation) :=
  if m.any (fun p => p.1 == k) then
    m.map fun p => if p.1 == k then (k, v) else p
  else
    m ++ [(k, v)]

/-- Embedding of `ReservationService`: the injected duplicate policy and the
private `Map<string, Reservation>` keyed by reservation id. -/
structure ReservationService where
  duplicatePolicy : Reservation → List Reservation → Bool
  reservations : List (String × Reservation)

namespace ReservationService

/-- Values of the internal map in insertion order, as `Array.from(map.values())`. -/
def values (s : ReservationService) : List Reservation :=
  s.reservations.map Prod.snd

/-- Embedding of `getAllReservations`. -/
def getAllReservations (s : ReservationService) : List Reservation :=
  s.values

/-- Embedding of `createReservation`: consult the policy against the stored
values; on a duplicate throw `Duplicate reservation detected` leaving the
state untouched; otherwise `set(id, r)` and return `r`. -/
def createReservation (s : ReservationService) (r : Reservation) :
    Except String Reservation × ReservationService :=
  if s.duplicatePolicy r s.values then
    (Except.error "Duplicate reservation detected", s)
  else
    (Except.ok r, { s with reservations := mapSet s.reservations r.id r })

/-- Embedding of `getReservation`. -/
def getReservation (s : ReservationService) (id : String) : Option Reservation :=
  (s.reservations.find? (fun p => p.1 == id)).map Prod.snd

end ReservationService

/-- A service configured with the email duplicate policy, with a given
stored map, as in `new ReservationService(new EmailDuplicatePolicy())`. -/
def emailService (rs : List (String × Reservation)) : ReservationService :=
  { duplicatePolicy := EmailDuplicatePolicy.check, reservations := rs }

/-! ## The orchestrator (`run-qa-playbook.sh`)

The script runs under `set -e` with no `trap`.  Each external command it
invokes is abstracted by a field of `World` recording that outcome of that command
observable outcome; `runPlaybook` then replays the control flow of the
script literally: the explicit `exit 1` branches, the `|| true` guards, the
unguarded PBT command under `set -e`, and the final summary whose last
command is an `echo` (so a run reaching it exits 0). -/

/-- Observable actions of a run of `run-qa-playbook.sh`, in script order. -/
inductive Event where
  /-- `pkill -f "prism mock"` at STEP 1 (pre-start sweep). -/
  | killExistingPrism
  /-- `pkill -f "node server.cjs"` at STEP 1 (pre-start sweep). -/
  | killExistingWeb
  /-- `npx prism mock ... &` (background mock API service). -/
  | startPrism
  /-- `node server.cjs &` (background static content service). -/
  | startWebServer
  /-- `echo BASE_URL=... > .env.mock`. -/
  | writeEnvMock
  /-- STEP 2: `node tools/validate.mjs ...` (bundle validation). -/
  | runBundleValidation
  /-- STEP 3: `java -jar karate.jar ... || true`. -/
  | runKarate
  /-- STEP 4a: `npx wdio run ... reservation-ui.feature || true`. -/
  | runWdioUi
  /-- STEP 4b: `npx wdio run ... reservation-api.feature || true`. -/
  | runWdioApi
  /-- STEP 5: `npm run mutation || true`. -/
  | runMutation
  /-- STEP 6: `npm run test:pbt` (no guard). -/
  | runPbt
  /-- STEP 7: metric extraction and findings report generation. -/
  | analyzeResults
  /-- STEP 8: `pkill -f "prism mock"` (cleanup). -/
  | stopPrism
  /-- STEP 8: `pkill -f "node server.cjs"` (cleanup). -/
  | stopWebServer
  /-- STEP 8: `rm -f .env.mock`. -/
  | removeEnvMock
  /-- Final analysis and summary (issue counting, analysis-summary.txt). -/
  | finalAnalysis
  deriving Repr, DecidableEq

/-- Outcomes of the external commands a run of the script invokes.  Exit
codes of the stages guarded by `|| true` are recorded but, faithfully to the
script, never branch the control flow. -/
structure World where
  /-- The STEP 1 health check: `curl -f http://127.0.0.1:4010` exits 0 or 22. -/
  mockHealthy : Bool
  /-- The STEP 1 secondary check: `curl -f http://127.0.0.1:8080` exits 0
  (failure only prints a warning). -/
  webHealthy : Bool
  /-- STEP 2: `node tools/validate.mjs` exits 0. -/
  bundleValid : Bool
  /-- Exit code of the karate stage (discarded by `|| true`). -/
  karateExitCode : Nat
  /-- Exit code of the wdio UI stage (discarded by `|| true`). -/
  wdioUiExitCode : Nat
  /-- Exit code of the wdio API stage (discarded by `|| true`). -/
  wdioApiExitCode : Nat
  /-- Exit code of `npm run mutation` (discarded by `|| true`). -/
  mutationExitCode : Nat
  /-- Exit code of `npm run test:pbt` (unguarded: under `set -e` a nonzero
  value terminates the script with this code). -/
  pbtExitCode : Nat
  /-- Number extracted from `<N> passing` in logs/wdio-ui.log. -/
  uiPassed : Nat
  /-- Number extracted from `<N> passing` in logs/wdio-api.log. -/
  apiPassed : Nat
  /-- Score in `mutation score of X` in logs/stryker-run.log, when present. -/
  strykerLogScore : Option ℚ
  /-- Number of survived mutants parsed from the stryker log. -/
  mutantsSurvived : Nat
  /-- Number after `passed:` in logs/karate-run.log. -/
  karatePassed : Nat
  /-- Number after `failed:` in logs/karate-run.log. -/
  karateFailed : Nat
  /-- Number in `<N> passed` in logs/pbt-execution.log. -/
  pbtPassed : Nat
  /-- Number in `<N> total` in logs/pbt-execution.log. -/
  pbtTotal : Nat

/-- The metric values the final analysis of the script works with, after
the `: ${VAR:=0}` defaulting of unparsed values. -/
structure Metrics where
  karateFailed : Nat
  uiWdioCount : Nat
  apiWdioCount : Nat
  mutationScore : ℚ
  mutantsSurvived : Nat
  pbtPassed : Nat
  pbtTotal : Nat
  deriving Repr, DecidableEq

/-- Metrics the final analysis extracts from the logs of a world. -/
def metricsOf (w : World) : Metrics :=
  { karateFailed := w.karateFailed
    uiWdioCount := w.uiPassed
    apiWdioCount := w.apiPassed
    mutationScore := w.strykerLogScore.getD 0
    mutantsSurvived := w.mutantsSurvived
    pbtPassed := w.pbtPassed
    pbtTotal := w.pbtTotal }

/-- The mutation threshold test of the overall assessment:
`(( $(echo "$MUTATION_SCORE < 80" | bc -l) ))`. -/
def mutationBelowThreshold (score : ℚ) : Bool :=
  score < 80

/-- The tier classification printed for the mutation score: at least 90 is
EXCELLENT, at least 80 GOOD, at least 70 ACCEPTABLE, below that NEEDS
IMPROVEMENT. -/
def mutationTier (score : ℚ) : String :=
  if 90 ≤ score then "EXCELLENT"
  else if 80 ≤ score then "GOOD"
  else if 70 ≤ score then "ACCEPTABLE"
  else "NEEDS IMPROVEMENT"

/-- The issue messages of the overall assessment, in the order the script
prints them.  Survived mutants produce a warning line but, faithfully to
the script, never increment `TOTAL_ISSUES`. -/
def issuesOf (m : Metrics) : List String :=
  (if m.karateFailed > 0 then ["Contract tests have failures"] else []) ++
  (if m.uiWdioCount == 0 then ["UI tests need fixes"] else []) ++
  (if mutationBelowThreshold m.mutationScore then
    ["Mutation score below 80%"] else []) ++
  (if m.pbtPassed ≠ m.pbtTotal then
    ["Property-based tests have failures"] else [])

/-- The value of `TOTAL_ISSUES` computed by the overall assessment. -/
def countIssues (m : Metrics) : Nat :=
  (if m.karateFailed > 0 then 1 else 0) +
  (if m.uiWdioCount == 0 then 1 else 0) +
  (if mutationBelowThreshold m.mutationScore then 1 else 0) +
  (if m.pbtPassed ≠ m.pbtTotal then 1 else 0)

/-- The report persisted as `reports/analysis-summary.txt`: the run date,
the issue lines, and the OVERALL STATUS field, which reads `EXCELLENT`
exactly when `TOTAL_ISSUES` is zero. -/
structure ExecutionReport where
  date : String
  issues : List String
  overallStatus : String
  deriving Repr, DecidableEq

/-- Building the final report from the extracted metrics and the run date. -/
def buildReport (m : Metrics) (date : String) : ExecutionReport :=
  { date := date
    issues := issuesOf m
    overallStatus :=
      if countIssues m == 0 then "EXCELLENT"
      else toString (countIssues m) ++ " issues found" }

/-- Result of a run of the script: the trace of observable actions, the
process exit code, and `TOTAL_ISSUES` when the final analysis executed. -/
structure RunResult where
  trace : List Event
  exitCode : Nat
  totalIssues : Option Nat
  deriving Repr, DecidableEq

/-- Replay of `run-qa-playbook.sh` over a world of external outcomes.

STEP 1 starts both services in the background, then health checks the mock
service; on failure `exit 1` fires with nothing stopped and no `.env.mock`
written.  STEP 2 runs bundle validation; on failure `exit 1` fires with the
services left running and `.env.mock` left in place.  STEPS 3 to 5 are
guarded by `|| true`, so their exit codes never branch.  STEP 6 runs PBT
unguarded: under `set -e` a nonzero exit terminates the script with that
code before STEP 7.  Otherwise STEP 7 (analysis), STEP 8 (cleanup) and the
final analysis run; the last command of the script is an `echo` in both
branches of the final conditional, so the exit code is 0 regardless of
`TOTAL_ISSUES`. -/
def runPlaybook (w : World) : RunResult :=
  let started : List Event :=
    [Event.killExistingPrism, Event.killExistingWeb,
     Event.startPrism, Event.startWebServer]
  if !w.mockHealthy then
    { trace := started, exitCode := 1, totalIssues := none }
  else
    let afterStep1 := started ++ [Event.writeEnvMock]
    let afterStep2 := afterStep1 ++ [Event.runBundleValidation]
    if !w.bundleValid then
      { trace := afterStep2, exitCode := 1, totalIssues := none }
    else
      let afterStages := afterStep2 ++
        [Event.runKarate, Event.runWdioUi, Event.runWdioApi,
         Event.runMutation, Event.runPbt]
      if w.pbtExitCode ≠ 0 then
        { trace := afterStages, exitCode := w.pbtExitCode, totalIssues := none }
      else
        let full := afterStages ++
          [Event.analyzeResults, Event.stopPrism, Event.stopWebServer,
           Event.removeEnvMock, Event.finalAnalysis]
        { trace := full, exitCode := 0,
          totalIssues := some (countIssues (metricsOf w)) }

/-! ## Process shutdown (`pkill -f`)

Both the pre-start sweep and the STEP 8 cleanup stop the services with
`pkill -f "prism mock"` and `pkill -f "node server.cjs"`: every process
whose full command line contains the pattern as a substring receives the
termination signal.  The process ids captured at start time (`PRISM_PID`,
`WEB_SERVER_PID`) are never used for shutdown. -/

/-- A process of the process table: its id and its full command line. -/
structure ProcessEntry where
  pid : Nat
  cmdline : String
  deriving Repr, DecidableEq

/-- Character-list version of startsWith, used to define substring search. -/
def charsStartWith : List Char → List Char → Bool
  | _, [] => true
  | [], _ :: _ => false
  | c :: cs, d :: ds => c == d && charsStartWith cs ds

/-- Substring containment on character lists. -/
def charsContain : List Char → List Char → Bool
  | [], pat => pat.isEmpty
  | c :: cs, pat => charsStartWith (c :: cs) pat || charsContain cs pat

/-- Whether `pkill -f pat` matches a process: the pattern occurs as a
substring of the full command line. -/
def pkillMatches (pat : String) (p : ProcessEntry) : Bool :=
  charsContain p.cmdline.toList pat.toList

/-- Effect of `pkill -f pat` on the process table: every matching process
is terminated, whoever owns it. -/
def pkillF (pat : String) (procs : List ProcessEntry) : List ProcessEntry :=
  procs.filter fun p => !pkillMatches pat p

/-- The STEP 8 cleanup of the script: `pkill -f "prism mock"` followed by
`pkill -f "node server.cjs"`. -/
def cleanupKill (procs : List ProcessEntry) : List ProcessEntry :=
  pkillF "node server.cjs" (pkillF "prism mock" procs)

/-! ## Metric extraction (STEP 7)

STEP 7 writes `reports/analysis/mutation-score.txt` with
a grep of the mutationScore field piped through head and cut into the file,
with an echo of 0 as fallback on pipeline failure, when the artifact file exists and
`echo "0" > ...` when it does not.  The artifact is modelled as
`Option (Option String)`: `none` when `reports/mutation/mutation.json` is
absent, `some none` when the file exists but carries no `mutationScore`
field (the grep matches nothing, yet the pipeline exits 0 through `cut`,
so the fallback does not fire and the file is written empty), and
`some (some s)` when the field is present with digit text `s`. -/

/-- Content written to `reports/analysis/mutation-score.txt` by STEP 7. -/
def extractMutationScore : Option (Option String) → String
  | none => "0"
  | some none => ""
  | some (some s) => s

/-- Content written to `reports/analysis/karate-count.txt` by STEP 7: a
hardcoded 6 when the karate summary artifact exists, 0 otherwise. -/
def extractKarateCount (summaryExists : Bool) : String :=
  if summaryExists then "6" else "0"

/-! ## Concrete runs used by the theorems below -/

/-- A run where both services come up and bundle validation fails. -/
def bundleFailWorld : World :=
  { mockHealthy := true, webHealthy := true, bundleValid := false,
    karateExitCode := 0, wdioUiExitCode := 0, wdioApiExitCode := 0,
    mutationExitCode := 0, pbtExitCode := 0, uiPassed := 0, apiPassed := 0,
    strykerLogScore := none, mutantsSurvived := 0, karatePassed := 0,
    karateFailed := 0, pbtPassed := 0, pbtTotal := 0 }

/-- A second bundle-validation failure, with the web server degraded. -/
def bundleFailWorldB : World :=
  { bundleFailWorld with webHealthy := false }

/-- A run where every stage succeeds but the mutation score is 70. -/
def lowScoreWorld : World :=
  { mockHealthy := true, webHealthy := true, bundleValid := true,
    karateExitCode := 0, wdioUiExitCode := 0, wdioApiExitCode := 0,
    mutationExitCode := 0, pbtExitCode := 0, uiPassed := 3, apiPassed := 2,
    strykerLogScore := some 70, mutantsSurvived := 2, karatePassed := 6,
    karateFailed := 0, pbtPassed := 5, pbtTotal := 5 }

/-- A fully green run: all stages pass, mutation score 95. -/
def okWorld : World :=
  { lowScoreWorld with strykerLogScore := some 95, mutantsSurvived := 0 }

/-- A run where the PBT stage exits nonzero and everything else is green. -/
def pbtFailWorld : World :=
  { okWorld with pbtExitCode := 1 }

/-- A stored reservation used by the service theorems. -/
def rJohn : Reservation :=
  { id := "a", name := "John Doe", email := "john@example.com",
    amount := { amount := 100, currency := "EUR" }, createdAt := 0 }

/-- A second reservation with a fresh email but the same id as `rJohn`. -/
def rJaneSameId : Reservation :=
  { id := "a", name := "Jane Doe", email := "jane@example.com",
    amount := { amount := 150, currency := "EUR" }, createdAt := 1 }

/-- A reservation with the same email as `rJohn` but a fresh id. -/
def rJohnClone : Reservation :=
  { id := "b", name := "John Clone", email := "john@example.com",
    amount := { amount := 50, currency := "EUR" }, createdAt := 2 }

/-- Metrics of a green run whose mutation score sits exactly on the
threshold 80. -/
def metricsAt80 : Metrics :=
  { karateFailed := 0, uiWdioCount := 3, apiWdioCount := 2,
    mutationScore := 80, mutantsSurvived := 0, pbtPassed := 5, pbtTotal := 5 }

/-- Metrics of a green run whose mutation score is one unit below the
threshold. -/
def metricsAt79 : Metrics :=
  { metricsAt80 with mutationScore := 79 }

/-! ## Helper lemmas -/

/-- Length change of a JavaScript `Map.set`: unchanged when the key is
already present, one more entry when it is fresh. -/
lemma mapSet_length (m : List (String × Reservation)) (k : String)
    (v : Reservation) :
    (mapSet m k v).length =
      if m.any (fun p => p.1 == k) then m.length else m.length + 1 := by
  unfold mapSet
  split <;> simp

/-- The email duplicate policy fires exactly when a stored reservation
carries the email of the candidate. -/
lemma emailPolicy_iff (r : Reservation) (l : List Reservation) :
    EmailDuplicatePolicy.check r l = true ↔ ∃ r2 ∈ l, r2.email = r.email := by
  simp [EmailDuplicatePolicy.check, List.any_eq_true]

/-- Membership of the mutation issue line in the issue list is equivalent
to the below-80 test. -/
lemma mutation_issue_mem (m : Metrics) :
    ("Mutation score below 80%" ∈ issuesOf m) ↔
      mutationBelowThreshold m.mutationScore = true := by
  unfold issuesOf
  split <;> split <;> split <;> split <;> simp_all

/-- Survival of `pkill -f pat`: a process stays exactly when the pattern
does not match its command line. -/
lemma pkillF_mem (pat : String) (procs : List ProcessEntry) (p : ProcessEntry) :
    p ∈ pkillF pat procs ↔ p ∈ procs ∧ pkillMatches pat p = false := by
  simp [pkillF, List.mem_filter]

/-! ## Claim theorems -/

/-- C1 (counterexample): on a fail-fast abort (bundle validation fails) the
script exits with code 1 while both started services received no stop
signal and .env.mock, already written, is never removed.  This refutes the
claim that the cleanup phase executes on every exit path. -/
theorem cleanupSkippedOnFailFastAbort :
    Event.startPrism ∈ (runPlaybook bundleFailWorld).trace ∧
    Event.startWebServer ∈ (runPlaybook bundleFailWorld).trace ∧
    Event.writeEnvMock ∈ (runPlaybook bundleFailWorld).trace ∧
    Event.stopPrism ∉ (runPlaybook bundleFailWorld).trace ∧
    Event.stopWebServer ∉ (runPlaybook bundleFailWorld).trace ∧
    Event.removeEnvMock ∉ (runPlaybook bundleFailWorld).trace ∧
    (runPlaybook bundleFailWorld).exitCode = 1 := by decide

/-- C1 (amended): the cleanup phase (one stop signal per service and the
removal of .env.mock) executes exactly on the runs that pass the mock
health check, the bundle validation, and the PBT stage; on every such run
each service is stopped exactly once, and on aborted runs not at all. -/
theorem cleanupExactlyOnCompletedRuns (w : World) :
    ((runPlaybook w).trace.count Event.stopPrism =
      if w.mockHealthy && w.bundleValid && (w.pbtExitCode == 0) then 1 else 0) ∧
    ((runPlaybook w).trace.count Event.stopWebServer =
      if w.mockHealthy && w.bundleValid && (w.pbtExitCode == 0) then 1 else 0) ∧
    ((runPlaybook w).trace.count Event.removeEnvMock =
      if w.mockHealthy && w.bundleValid && (w.pbtExitCode == 0) then 1 else 0) ∧
    (runPlaybook w).trace.count Event.startPrism = 1 ∧
    (runPlaybook w).trace.count Event.startWebServer = 1 := by
  rcases w with ⟨mh, wh, bv, k1, k2, k3, k4, pbt, u, a2, sc, ms, kp, kf, pp, pt⟩
  cases mh <;> cases bv <;> by_cases hp : pbt = 0 <;>
    simp [runPlaybook, hp]

/-- C2 (counterexample): a run where every stage succeeds but the mutation
score is 70 records one issue, yet the process exit code is 0, refuting
the claimed equivalence between exit code 0 and a zero issue count. -/
theorem exitZeroDespiteIssues :
    (runPlaybook lowScoreWorld).totalIssues = some 1 ∧
    (runPlaybook lowScoreWorld).exitCode = 0 := by decide

/-- C2 (amended): every run that passes the health check, bundle validation
and the PBT stage reaches the final summary and exits with code 0,
whatever the aggregated issue count is; the issue count is computed only
on those runs. -/
theorem exitCodeSemantics (w : World) (hm : w.mockHealthy = true)
    (hb : w.bundleValid = true) (hp : w.pbtExitCode = 0) :
    (runPlaybook w).exitCode = 0 ∧
    (runPlaybook w).totalIssues = some (countIssues (metricsOf w)) := by
  simp [runPlaybook, hm, hb, hp]

/-- C2 (witness): the green run exits 0 with zero issues. -/
theorem exitCodeSemanticsWitness :
    (runPlaybook okWorld).exitCode = 0 ∧
    (runPlaybook okWorld).totalIssues = some 0 :=
  exitCodeSemantics okWorld rfl rfl rfl

/-- C3 (counterexample): on the fail-fast bundle-validation failure no
subsequent stage command runs, but the pipeline does not proceed to the
cleanup or analysis of partial results either: the process exits at once,
refuting the second half of the claim. -/
theorem failFastSkipsCleanupAndAnalysis :
    (runPlaybook bundleFailWorldB).exitCode = 1 ∧
    Event.runKarate ∉ (runPlaybook bundleFailWorldB).trace ∧
    Event.analyzeResults ∉ (runPlaybook bundleFailWorldB).trace ∧
    Event.stopPrism ∉ (runPlaybook bundleFailWorldB).trace ∧
    Event.finalAnalysis ∉ (runPlaybook bundleFailWorldB).trace := by decide

/-- C3 (amended): when the fail-fast bundle-validation stage exits nonzero,
no subsequently ordered stage command is ever invoked; the process exits
immediately with code 1 and the analysis and cleanup phases are skipped. -/
theorem failFastAbortsPipeline (w : World) (hm : w.mockHealthy = true)
    (hb : w.bundleValid = false) :
    runPlaybook w =
      { trace := [Event.killExistingPrism, Event.killExistingWeb,
          Event.startPrism, Event.startWebServer, Event.writeEnvMock,
          Event.runBundleValidation],
        exitCode := 1, totalIssues := none } ∧
    Event.runKarate ∉ (runPlaybook w).trace ∧
    Event.runWdioUi ∉ (runPlaybook w).trace ∧
    Event.runWdioApi ∉ (runPlaybook w).trace ∧
    Event.runMutation ∉ (runPlaybook w).trace ∧
    Event.runPbt ∉ (runPlaybook w).trace ∧
    Event.analyzeResults ∉ (runPlaybook w).trace ∧
    Event.stopPrism ∉ (runPlaybook w).trace := by
  have h : runPlaybook w =
      { trace := [Event.killExistingPrism, Event.killExistingWeb,
          Event.startPrism, Event.startWebServer, Event.writeEnvMock,
          Event.runBundleValidation],
        exitCode := 1, totalIssues := none } := by
    simp [runPlaybook, hm, hb]
  refine ⟨h, ?_, ?_, ?_, ?_, ?_, ?_, ?_⟩ <;> (rw [h]; decide)

/-- C3 (witness): the amended behavior at the concrete bundle failure. -/
theorem failFastAbortsPipelineWitness :
    runPlaybook bundleFailWorld =
      { trace := [Event.killExistingPrism, Event.killExistingWeb,
          Event.startPrism, Event.startWebServer, Event.writeEnvMock,
          Event.runBundleValidation],
        exitCode := 1, totalIssues := none } ∧
    Event.runKarate ∉ (runPlaybook bundleFailWorld).trace ∧
    Event.runWdioUi ∉ (runPlaybook bundleFailWorld).trace ∧
    Event.runWdioApi ∉ (runPlaybook bundleFailWorld).trace ∧
    Event.runMutation ∉ (runPlaybook bundleFailWorld).trace ∧
    Event.runPbt ∉ (runPlaybook bundleFailWorld).trace ∧
    Event.analyzeResults ∉ (runPlaybook bundleFailWorld).trace ∧
    Event.stopPrism ∉ (runPlaybook bundleFailWorld).trace :=
  failFastAbortsPipeline bundleFailWorld rfl rfl

/-- C4 (code bug): with every earlier stage green and the PBT subprocess
exiting 1, the unguarded PBT command under set -e terminates the script
with exit code 1: the analysis, the cleanup and the final issue accounting
never run, and no record of the failure is produced, although the script
has an error branch and an issue counter for exactly this case. -/
theorem pbtFailureAbortsRun :
    (runPlaybook pbtFailWorld).exitCode = 1 ∧
    Event.runPbt ∈ (runPlaybook pbtFailWorld).trace ∧
    Event.analyzeResults ∉ (runPlaybook pbtFailWorld).trace ∧
    Event.stopPrism ∉ (runPlaybook pbtFailWorld).trace ∧
    Event.finalAnalysis ∉ (runPlaybook pbtFailWorld).trace ∧
    (runPlaybook pbtFailWorld).totalIssues = none := by decide

/-- Exit codes of the stages guarded by double-pipe true (karate, both wdio
runs, mutation) never influence the run at all. -/
theorem tolerantStagesIgnoreExitCodes (w : World) (k u a m : Nat) :
    runPlaybook
        { w with
          karateExitCode := k
          wdioUiExitCode := u
          wdioApiExitCode := a
          mutationExitCode := m } =
      runPlaybook w := rfl

/-- C5 (counterexample): the extraction output for a missing mutation
artifact is byte-identical to the output for an artifact whose score is a
legitimate 0, refuting the claimed distinguishability; moreover no record
with a notRun marker exists, only the bare text value. -/
theorem extractionConflatesMissingAndZero :
    extractMutationScore none = extractMutationScore (some (some "0")) ∧
    extractMutationScore none = "0" := ⟨rfl, rfl⟩

/-- C5 (amended): metric extraction is total, never failing on a missing or
malformed artifact: a missing artifact degrades to the bare value 0 and a
present artifact without the score field to an empty value, with no notRun
flag, so the degraded output coincides with a legitimately extracted score
of 0. -/
theorem extractionTotalDegradesToZero :
    extractMutationScore none = "0" ∧
    extractMutationScore (some none) = "" ∧
    (∀ s : String, extractMutationScore (some (some s)) = s) ∧
    extractKarateCount true = "6" ∧
    extractKarateCount false = "0" :=
  ⟨rfl, rfl, fun _ => rfl, rfl, rfl⟩

/-- C6 (counterexample): the cleanup terminates an unrelated process (pid
200) merely because its command line shares the substring used by the
pattern kill, refuting the claim that shutdown is tracked by process
identity and can never hit unrelated processes. -/
theorem pkillKillsUnrelatedProcess :
    pkillMatches "prism mock"
      { pid := 200, cmdline := "backup-prism mockups.sh" } = true ∧
    cleanupKill
      [{ pid := 100,
         cmdline := "npx prism mock openapi/reservations.yaml --port 4010" },
       { pid := 200, cmdline := "backup-prism mockups.sh" }] = [] := by decide

/-- C6 (amended): shutdown terminates processes by full-command-line
pattern matching, not by stored process identity: a process survives the
cleanup exactly when neither kill pattern occurs in its command line,
whatever its pid. -/
theorem cleanupKillsByPatternOnly (procs : List ProcessEntry)
    (p : ProcessEntry) :
    p ∈ cleanupKill procs ↔
      p ∈ procs ∧ pkillMatches "prism mock" p = false ∧
        pkillMatches "node server.cjs" p = false := by
  simp [cleanupKill, pkillF_mem, and_assoc]

/-- C6 (witness): the amended characterization evaluated at a concrete
process table. -/
theorem cleanupKillsByPatternOnlyWitness :
    { pid := 7, cmdline := "bash deploy.sh" } ∈
        cleanupKill [{ pid := 7, cmdline := "bash deploy.sh" }] ↔
      ({ pid := 7, cmdline := "bash deploy.sh" } : ProcessEntry) ∈
          [({ pid := 7, cmdline := "bash deploy.sh" } : ProcessEntry)] ∧
        pkillMatches "prism mock" { pid := 7, cmdline := "bash deploy.sh" } = false ∧
        pkillMatches "node server.cjs" { pid := 7, cmdline := "bash deploy.sh" } = false :=
  cleanupKillsByPatternOnly _ _

/-- C7: a mutation score exactly equal to the configured minimum 80 is not
below the threshold, classifies in the GOOD tier and contributes no
mutation issue, while any score strictly below 80 is below the threshold,
classifies as ACCEPTABLE or NEEDS IMPROVEMENT, and contributes the
mutation issue line. -/
theorem mutationThresholdBoundary (m m2 : Metrics) (s : ℚ)
    (hm80 : m.mutationScore = 80) (hs : s < 80) (hm2 : m2.mutationScore = s) :
    mutationBelowThreshold 80 = false ∧
    mutationTier 80 = "GOOD" ∧
    "Mutation score below 80%" ∉ issuesOf m ∧
    mutationBelowThreshold s = true ∧
    (mutationTier s = "ACCEPTABLE" ∨ mutationTier s = "NEEDS IMPROVEMENT") ∧
    "Mutation score below 80%" ∈ issuesOf m2 := by
  refine ⟨by norm_num [mutationBelowThreshold], by norm_num [mutationTier],
    ?_, ?_, ?_, ?_⟩
  · rw [mutation_issue_mem]
    simp [mutationBelowThreshold, hm80]
  · simp [mutationBelowThreshold, hs]
  · unfold mutationTier
    have h1 : ¬ (90 : ℚ) ≤ s := by linarith
    have h2 : ¬ (80 : ℚ) ≤ s := by linarith
    by_cases h3 : (70 : ℚ) ≤ s <;> simp [h1, h2, h3]
  · rw [mutation_issue_mem]
    simp [mutationBelowThreshold, hm2, hs]

/-- C7 (witness): the boundary behavior at the concrete scores 80 and 79. -/
theorem mutationThresholdBoundaryWitness :
    (79 : ℚ) < 80 ∧
    (mutationBelowThreshold 80 = false ∧
    mutationTier 80 = "GOOD" ∧
    "Mutation score below 80%" ∉ issuesOf metricsAt80 ∧
    mutationBelowThreshold 79 = true ∧
    (mutationTier 79 = "ACCEPTABLE" ∨ mutationTier 79 = "NEEDS IMPROVEMENT") ∧
    "Mutation score below 80%" ∈ issuesOf metricsAt79) :=
  ⟨by decide,
    mutationThresholdBoundary metricsAt80 metricsAt79 79 rfl (by decide) rfl⟩

/-- C8: aggregation is deterministic and independent of the timestamp: the
issue list and the overall status of the report built from equal metric
records coincide whatever run dates the two reports carry. -/
theorem aggregationDeterministic (m : Metrics) (d1 d2 : String) :
    (buildReport m d1).issues = (buildReport m d2).issues ∧
    (buildReport m d1).overallStatus = (buildReport m d2).overallStatus :=
  ⟨rfl, rfl⟩

/-- C9 (counterexample): with the email duplicate policy, creating a
reservation whose email is fresh but whose id equals a stored key succeeds
and returns the reservation, yet getAllReservations does not grow: the
Map.set overwrites the entry, refuting the claimed growth by exactly one
element on every success. -/
theorem createReservationIdOverwrite :
    ((emailService [("a", rJohn)]).createReservation rJaneSameId).1 =
        Except.ok rJaneSameId ∧
    (emailService [("a", rJohn)]).getAllReservations.length = 1 ∧
    ((emailService
        [("a", rJohn)]).createReservation rJaneSameId).2.getAllReservations.length
      = 1 :=
  ⟨rfl, rfl, rfl⟩

/-- C9 (amended): with the email duplicate policy, createReservation throws
the duplicate error exactly when a stored reservation carries the email of
the candidate, leaving the stored map untouched on that throw; on success
it returns the candidate and getAllReservations grows by exactly one
element when the candidate id is not a stored key, while a stored id is
overwritten in place leaving the count unchanged. -/
theorem emailServiceCreateSpec (rs : List (String × Reservation))
    (r : Reservation) :
    (((emailService rs).createReservation r).1 =
        Except.error "Duplicate reservation detected" ↔
      ∃ r2 ∈ (emailService rs).getAllReservations, r2.email = r.email) ∧
    (((emailService rs).createReservation r).1 = Except.ok r ↔
      ¬ ∃ r2 ∈ (emailService rs).getAllReservations, r2.email = r.email) ∧
    ((emailService rs).createReservation r).2.getAllReservations.length =
      (if ∃ r2 ∈ (emailService rs).getAllReservations, r2.email = r.email then
        (emailService rs).getAllReservations.length
      else if rs.any (fun p => p.1 == r.id) then
        (emailService rs).getAllReservations.length
      else (emailService rs).getAllReservations.length + 1) ∧
    (((emailService rs).createReservation r).1 =
        Except.error "Duplicate reservation detected" →
      ((emailService rs).createReservation r).2 = emailService rs) := by
  simp only [emailService, ReservationService.createReservation,
    ReservationService.getAllReservations, ReservationService.values]
  by_cases hex : ∃ r2 ∈ rs.map Prod.snd, r2.email = r.email
  · have hdup : EmailDuplicatePolicy.check r (rs.map Prod.snd) = true :=
      (emailPolicy_iff r (rs.map Prod.snd)).mpr hex
    rw [if_pos hex, if_pos hdup]
    exact ⟨iff_of_true rfl hex, iff_of_false (by simp) (fun h => h hex),
      rfl, fun _ => rfl⟩
  · have hnot : ¬ EmailDuplicatePolicy.check r (rs.map Prod.snd) = true :=
      fun h => hex ((emailPolicy_iff r (rs.map Prod.snd)).mp h)
    rw [if_neg hex, if_neg hnot]
    refine ⟨iff_of_false (by simp) hex, iff_of_true rfl hex, ?_,
      fun h => absurd h (by simp)⟩
    simp [List.length_map, mapSet_length]

/-- C9 (witness): the amended behavior at a concrete duplicate email: the
creation throws and the stored map is unchanged. -/
theorem emailServiceCreateSpecWitness :
    ((((emailService [("a", rJohn)]).createReservation rJohnClone).1 =
        Except.error "Duplicate reservation detected" ↔
      ∃ r2 ∈ (emailService [("a", rJohn)]).getAllReservations,
        r2.email = rJohnClone.email) ∧
    (((emailService [("a", rJohn)]).createReservation rJohnClone).1 =
        Except.ok rJohnClone ↔
      ¬ ∃ r2 ∈ (emailService [("a", rJohn)]).getAllReservations,
        r2.email = rJohnClone.email) ∧
    ((emailService
        [("a", rJohn)]).createReservation rJohnClone).2.getAllReservations.length =
      (if ∃ r2 ∈ (emailService [("a", rJohn)]).getAllReservations,
          r2.email = rJohnClone.email then
        (emailService [("a", rJohn)]).getAllReservations.length
      else if [("a", rJohn)].any (fun p => p.1 == rJohnClone.id) then
        (emailService [("a", rJohn)]).getAllReservations.length
      else (emailService [("a", rJohn)]).getAllReservations.length + 1) ∧
    (((emailService [("a", rJohn)]).createReservation rJohnClone).1 =
        Except.error "Duplicate reservation detected" →
      ((emailService [("a", rJohn)]).createReservation rJohnClone).2 =
        emailService [("a", rJohn)])) ∧
    ((emailService [("a", rJohn)]).createReservation rJohnClone).2 =
      emailService [("a", rJohn)] :=
  ⟨emailServiceCreateSpec [("a", rJohn)] rJohnClone,
    (emailServiceCreateSpec [("a", rJohn)] rJohnClone).2.2.2 rfl⟩

/-- C10: CurrencyUtils.add throws the different-currencies error exactly
when the two currency codes differ; on equal codes it returns the sum with
the left currency code, and add is commutative. -/
theorem currencyAddSpec (a b : Currency) :
    (CurrencyUtils.add a b = Except.error "Cannot add different currencies" ↔
      a.currency ≠ b.currency) ∧
    (a.currency = b.currency →
      CurrencyUtils.add a b =
        Except.ok { amount := a.amount + b.amount, currency := a.currency }) ∧
    CurrencyUtils.add a b = CurrencyUtils.add b a := by
  unfold CurrencyUtils.add
  by_cases h : a.currency = b.currency
  · have h2 : ¬ b.currency ≠ a.currency := fun hne => hne h.symm
    simp [h, h2, add_comm]
  · have h2 : b.currency ≠ a.currency := fun e => h e.symm
    simp [h, h2]

/-- C10 (witness): adding two concrete EUR amounts succeeds with the sum
and commutes. -/
theorem currencyAddSpecWitness :
    ((CurrencyUtils.add ⟨1, "EUR"⟩ ⟨2, "EUR"⟩ =
        Except.error "Cannot add different currencies" ↔
      ("EUR" : String) ≠ "EUR") ∧
    (("EUR" : String) = "EUR" →
      CurrencyUtils.add ⟨1, "EUR"⟩ ⟨2, "EUR"⟩ =
        Except.ok ⟨(1 : ℚ) + 2, "EUR"⟩) ∧
    CurrencyUtils.add ⟨1, "EUR"⟩ ⟨2, "EUR"⟩ =
      CurrencyUtils.add ⟨2, "EUR"⟩ ⟨1, "EUR"⟩) ∧
    CurrencyUtils.add ⟨1, "EUR"⟩ ⟨2, "EUR"⟩ = Except.ok ⟨(1 : ℚ) + 2, "EUR"⟩ :=
  ⟨currencyAddSpec ⟨1, "EUR"⟩ ⟨2, "EUR"⟩,
    (currencyAddSpec ⟨1, "EUR"⟩ ⟨2, "EUR"⟩).2.1 rfl⟩
